import Mathlib

/-!
Shallow embedding of the crawlerverse Python SDK's game-runner core and error
taxonomy, translated from:
  - src/python/src/crawlerverse/types.py       (enums)
  - src/python/src/crawlerverse/models.py      (data models, parse_outcome)
  - src/python/src/crawlerverse/actions.py     (Action union)
  - src/python/src/crawlerverse/exceptions.py  (exception hierarchy)
  - src/python/src/crawlerverse/_base_client.py (map_error_response)
  - src/python/src/crawlerverse/runner.py      (run_game, async_run_game)

Effects are modelled by explicit interaction scripts: each call the runner
makes to the client, the caller-supplied decision function (`agent_fn`) or the
step-callback (`on_step`) consumes the next entry of the corresponding script
list, and every externally observable interaction is recorded in an event
trace.  Logging calls are unobservable and not modelled.
-/

namespace Crawlerverse

/-- The `Direction` enum from types.py. -/
inductive Direction where
  | north | south | east | west
  | northeast | northwest | southeast | southwest
deriving DecidableEq

/-- The `TileType` enum from types.py. -/
inductive TileType where
  | floor | wall | stairsDown | stairsUp | door | portal
deriving DecidableEq

/-- The `Monster` model from models.py. -/
structure Monster where
  type : String
  hp : Int
  maxHp : Int
deriving DecidableEq

/-- The `VisibleTile` model from models.py. -/
structure VisibleTile where
  x : Int
  y : Int
  type : TileType
  items : List String
  monster : Option Monster
deriving DecidableEq

/-- The `InventoryItem` model from models.py. -/
structure InventoryItem where
  id : String
  type : String
  name : String
deriving DecidableEq

/-- The `Player` model from models.py. -/
structure Player where
  position : Int × Int
  hp : Int
  maxHp : Int
  attack : Int
  defense : Int
  equippedWeapon : Option String
  equippedArmor : Option String
deriving DecidableEq

/-- The `Observation` model from models.py: the agent's view of the game world for
a single turn.  Frozen (immutable) in the source; helper methods not needed by
the runner are omitted. -/
structure Observation where
  turn : Int
  floor : Int
  player : Player
  inventory : List InventoryItem
  visibleTiles : List VisibleTile
  messages : List String
deriving DecidableEq

/-- The `result` tag of `CompletedOutcome` in models.py. -/
inductive CompletedResult where
  | victory | death
deriving DecidableEq

/-- The `reason` tag of `AbandonedOutcome` in models.py. -/
inductive AbandonedReason where
  | timeout | disconnected
deriving DecidableEq

/-- The `Outcome` discriminated union from models.py:
`InProgressOutcome | CompletedOutcome | AbandonedOutcome`, discriminated on
the `status` field. -/
inductive Outcome where
  | inProgress
  | completed (result : CompletedResult) (floor : Int) (turns : Int)
  | abandoned (reason : AbandonedReason) (floor : Int) (turns : Int)
deriving DecidableEq

/-- Model of `isinstance(o, InProgressOutcome)` on an `Outcome` value. -/
def Outcome.isInProgress : Outcome → Bool
  | .inProgress => true
  | _ => false

/-- The `Action` union from actions.py: nine variants, each with an optional
free-text `reasoning` field that the runner never interprets. -/
inductive Action where
  | move (direction : Direction) (reasoning : Option String)
  | attack (direction : Direction) (reasoning : Option String)
  | wait (reasoning : Option String)
  | pickup (reasoning : Option String)
  | drop (itemType : String) (reasoning : Option String)
  | use (itemType : String) (reasoning : Option String)
  | equip (itemType : String) (reasoning : Option String)
  | enterPortal (reasoning : Option String)
  | rangedAttack (direction : Direction) (distance : Int) (reasoning : Option String)
deriving DecidableEq

/-- The `GameResult` model from models.py: returned by `run_game` at loop
termination.  The source is a pydantic model whose field is declared
`outcome: CompletedOutcome | AbandonedOutcome` and validated at construction;
the Lean record carries the full `Outcome` union, and pydantic's rejection of
an in-progress outcome is modelled by `mkGameResult` at the one construction
site that is not already guarded by an is-in-progress check. -/
structure GameResult where
  gameId : String
  spectatorUrl : String
  outcome : Outcome
deriving DecidableEq

/-- The `CreateGameResponse` model from models.py. -/
structure CreateGameResponse where
  gameId : String
  observation : Observation
  spectatorUrl : String
deriving DecidableEq

/-- The `GameStateResponse` model from models.py (returned by `client.games.get`). -/
structure GameStateResponse where
  observation : Observation
  outcome : Outcome
deriving DecidableEq

/-- The `ActionResponse` model from models.py (returned by `client.games.action`). -/
structure ActionResponse where
  observation : Observation
  outcome : Outcome
deriving DecidableEq

/-- A model of Python runtime values, rich enough for the JSON-ish error
bodies `map_error_response` inspects. -/
inductive PyValue where
  | none
  | bool (b : Bool)
  | int (n : Int)
  | str (s : String)
  | list (xs : List PyValue)
  | dict (entries : List (String × PyValue))

/-- Python truthiness (`if value:`) for the modelled values. -/
def PyValue.truthy : PyValue → Bool
  | .none => false
  | .bool b => b
  | .int n => n != 0
  | .str s => s != ""
  | .list xs => !xs.isEmpty
  | .dict entries => !entries.isEmpty

/-- Model of `d.get(key)` on a Python dict: `None`-free lookup result
(`Option.none` when the key is absent). -/
def dictGet (entries : List (String × PyValue)) (key : String) : Option PyValue :=
  (entries.find? (fun kv => kv.1 == key)).map (fun kv => kv.2)

/-- Model of `d.get(key, default)` on a Python dict: the stored value when the key is
present (even if that value is `None`), the default otherwise. -/
def dictGetD (entries : List (String × PyValue)) (key : String) (default : PyValue) :
    PyValue :=
  match dictGet entries key with
  | some v => v
  | Option.none => default

/-- Model of `headers.get(key, default)` on the (string-valued) response-header
mapping. -/
def headerGetD (headers : List (String × String)) (key : String) (default : String) :
    String :=
  match headers.find? (fun kv => kv.1 == key) with
  | some kv => kv.2
  | Option.none => default

/-- Drop leading whitespace characters. -/
def dropSpaces (cs : List Char) : List Char :=
  match cs with
  | [] => []
  | c :: rest => if c.isWhitespace then dropSpaces rest else c :: rest

/-- Decimal value of a digit string (`Option.none` on a non-digit). -/
def digitsValAux : List Char → Nat → Option Nat
  | [], acc => some acc
  | c :: rest, acc =>
    if c.isDigit then digitsValAux rest (10 * acc + (c.toNat - 48)) else Option.none

/-- Decimal value of a non-empty digit string. -/
def digitsVal : List Char → Option Nat
  | [] => Option.none
  | cs => digitsValAux cs 0

/-- Model of `int(s)` on a string, as used for the retry-after header: strips
surrounding whitespace, accepts an optional sign followed by decimal digits,
and raises `ValueError` (here: `Option.none`) otherwise.  (Python also
accepts underscores between digits; irrelevant for these claims.) -/
def pyParseInt (s : String) : Option Int :=
  match dropSpaces (dropSpaces s.toList.reverse).reverse with
  | '+' :: ds => (digitsVal ds).map Int.ofNat
  | '-' :: ds => (digitsVal ds).map (fun n => -(n : Int))
  | ds => (digitsVal ds).map Int.ofNat

/-- The `CrawlerAPIError` hierarchy from exceptions.py, one constructor per
class, each carrying the class's own fields (`status_code` and `message` from
the base class, plus the subclass extras).  `GameOverError.outcome` is
declared `CompletedOutcome | AbandonedOutcome` in the source; we carry the
full `Outcome` union, which is what `parse_outcome` can produce at runtime. -/
inductive CrawlerError where
  | validationError (statusCode : Int) (message : PyValue) (details : PyValue)
  | authenticationError (statusCode : Int) (message : PyValue)
  | forbiddenError (statusCode : Int) (message : PyValue)
  | notFoundError (statusCode : Int) (message : PyValue)
  | gameOverError (statusCode : Int) (message : PyValue) (outcome : Outcome)
  | invalidActionError (statusCode : Int) (message : PyValue) (code : PyValue)
  | rateLimitError (statusCode : Int) (message : PyValue) (retryAfter : Int)
  | apiError (statusCode : Int) (message : PyValue)

/-- Python exceptions the embedding distinguishes: the crawlerverse API
errors, `RuntimeError` (with its `from e` cause), `ValueError` (from `int()`),
pydantic validation failure (from `parse_outcome`), and arbitrary other
exceptions raised by caller-supplied code. -/
inductive PyExc where
  | crawler (e : CrawlerError)
  | runtimeError (message : String) (cause : Option PyExc)
  | valueError
  | pydanticError
  | other (tag : String)

/-- Pydantic validation performed when constructing a `GameResult`
(models.py): the declared field type `CompletedOutcome | AbandonedOutcome`
rejects an in-progress outcome, raising `pydantic.ValidationError`; any other
outcome is stored as given. -/
def mkGameResult (gameId spectatorUrl : String) (outcome : Outcome) :
    Except PyExc GameResult :=
  if outcome.isInProgress then .error .pydanticError
  else .ok ⟨gameId, spectatorUrl, outcome⟩

/-- The function `parse_outcome` from models.py: validate a Python value against the
`Outcome` discriminated union (discriminator `status`; `completed` requires
`result`/`floor`/`turns`, `abandoned` requires `reason`/`floor`/`turns`).
`Option.none` models a pydantic `ValidationError`. -/
def parse_outcome (data : PyValue) : Option Outcome :=
  match data with
  | .dict entries =>
    match dictGet entries "status" with
    | some (.str "in_progress") => some .inProgress
    | some (.str "completed") =>
      match dictGet entries "result", dictGet entries "floor", dictGet entries "turns" with
      | some (.str "victory"), some (.int f), some (.int t) =>
        some (.completed .victory f t)
      | some (.str "death"), some (.int f), some (.int t) =>
        some (.completed .death f t)
      | _, _, _ => Option.none
    | some (.str "abandoned") =>
      match dictGet entries "reason", dictGet entries "floor", dictGet entries "turns" with
      | some (.str "timeout"), some (.int f), some (.int t) =>
        some (.abandoned .timeout f t)
      | some (.str "disconnected"), some (.int f), some (.int t) =>
        some (.abandoned .disconnected f t)
      | _, _, _ => Option.none
    | _ => Option.none
  | _ => Option.none

/-- The function `map_error_response` from _base_client.py.  The Python function always
raises (`NoReturn`); the model returns the raised exception as a value. -/
def map_error_response (statusCode : Int) (body : List (String × PyValue))
    (headers : List (String × String)) : PyExc :=
  let message := dictGetD body "error" (.str "Unknown error")
  if statusCode = 400 then
    .crawler (.validationError 400 message (dictGetD body "details" .none))
  else if statusCode = 401 then
    .crawler (.authenticationError 401 message)
  else if statusCode = 403 then
    .crawler (.forbiddenError 403 message)
  else if statusCode = 404 then
    .crawler (.notFoundError 404 message)
  else if statusCode = 409 then
    let outcomeData := dictGetD body "outcome" .none
    if outcomeData.truthy then
      match parse_outcome outcomeData with
      | some outcome => .crawler (.gameOverError 409 message outcome)
      | Option.none => .pydanticError
    else
      .crawler (.apiError 409 message)
  else if statusCode = 422 then
    .crawler (.invalidActionError 422 message (dictGetD body "code" (.str "UNKNOWN")))
  else if statusCode = 429 then
    match pyParseInt (headerGetD headers "retry-after" "60") with
    | some retryAfter => .crawler (.rateLimitError 429 message retryAfter)
    | Option.none => .valueError
  else
    .crawler (.apiError statusCode message)

/-- Which sleep primitive a backoff used: `time.sleep` in `run_game`,
`asyncio.sleep` in `async_run_game`. -/
inductive SleepPrim where
  | timeSleep | asyncioSleep
deriving DecidableEq

/-- Externally observable interactions of a runner invocation, in order. -/
inductive Event where
  | getCall (gameId : String)
  | createCall (modelId : Option String)
  | agentCall (obs : Observation)
  | submitCall (gameId : String) (action : Action)
  | stepCall (obs : Observation) (action : Action)
  | sleep (prim : SleepPrim) (seconds : Int)

/-- How a runner invocation ends: a normal `GameResult`, a raised exception,
or exhaustion of the finite interaction script (the Python loop would simply
keep running). -/
inductive RunOutcome where
  | finished (result : GameResult)
  | raised (e : PyExc)
  | outOfScript

/-- One entry of the submit script: what `client.games.action` does on its
n-th call — return an `ActionResponse` or raise. -/
abbrev SubmitResult := Except PyExc ActionResponse

/-- The environment of one runner invocation: the responses of
`client.games.get` / `client.games.create` (used by at most one of the two
initialization paths), and the per-call scripts for `client.games.action`,
`agent_fn` and `on_step`. -/
structure RunEnv where
  getResponse : GameStateResponse
  createResponse : CreateGameResponse
  agentResults : List (Except PyExc Action)
  submitResults : List SubmitResult
  stepResults : List (Except PyExc Unit)

/-- The `while True` loop of `run_game` (runner.py, lines 60-115), sleeping
with `time.sleep`.  Each iteration consumes the next `agentResults` entry
(the `agent_fn` call); on agent success it consumes the next `submitResults`
entry (the `client.games.action` call); on submit success with `on_step`
configured it consumes the next `stepResults` entry.  Returns the event trace
and how the loop ended. -/
def runGameLoop (gameId spectatorUrl : String) (maxInvalidActions : Int)
    (onStepConfigured : Bool) (observation : Observation)
    (consecutiveInvalid : Int) (agentResults : List (Except PyExc Action))
    (submitResults : List SubmitResult) (stepResults : List (Except PyExc Unit)) :
    List Event × RunOutcome :=
  match agentResults with
  | [] => ([], .outOfScript)
  | aRes :: aRest =>
    match aRes with
    | .error e =>
      ([.agentCall observation],
       .raised (.runtimeError
         ("Agent function failed [game=" ++ gameId ++ ", turn="
           ++ toString observation.turn ++ "]") (some e)))
    | .ok action =>
      match submitResults with
      | [] => ([.agentCall observation], .outOfScript)
      | sRes :: sRest =>
        let evs := [Event.agentCall observation, Event.submitCall gameId action]
        match sRes with
        | .ok result =>
          -- consecutive_invalid = 0 on success; then on_step, then
          -- observation = result.observation, then the outcome check.
          if onStepConfigured then
            match stepResults with
            | [] => (evs, .outOfScript)
            | cbRes :: cbRest =>
              let evs := evs ++ [Event.stepCall observation action]
              match cbRes with
              | .error e => (evs, .raised e)
              | .ok _ =>
                if result.outcome.isInProgress then
                  let r := runGameLoop gameId spectatorUrl maxInvalidActions
                    onStepConfigured result.observation 0 aRest sRest cbRest
                  (evs ++ r.1, r.2)
                else
                  (evs, .finished ⟨gameId, spectatorUrl, result.outcome⟩)
          else
            if result.outcome.isInProgress then
              let r := runGameLoop gameId spectatorUrl maxInvalidActions
                onStepConfigured result.observation 0 aRest sRest stepResults
              (evs ++ r.1, r.2)
            else
              (evs, .finished ⟨gameId, spectatorUrl, result.outcome⟩)
        | .error e =>
          match e with
          | .crawler (.invalidActionError sc msg code) =>
            let ci := consecutiveInvalid + 1
            if ci ≥ maxInvalidActions then
              (evs, .raised (.crawler (.invalidActionError sc msg code)))
            else
              let r := runGameLoop gameId spectatorUrl maxInvalidActions
                onStepConfigured observation ci aRest sRest stepResults
              (evs ++ r.1, r.2)
          | .crawler (.rateLimitError _sc _msg retryAfter) =>
            let evs := evs ++ [Event.sleep .timeSleep retryAfter]
            let r := runGameLoop gameId spectatorUrl maxInvalidActions
              onStepConfigured observation consecutiveInvalid aRest sRest stepResults
            (evs ++ r.1, r.2)
          | .crawler (.gameOverError _sc _msg outcome) =>
            -- `return GameResult(...)`: pydantic validates the outcome field
            -- at construction; an in-progress outcome raises instead.
            match mkGameResult gameId spectatorUrl outcome with
            | .ok result => (evs, .finished result)
            | .error e2 => (evs, .raised e2)
          | e => (evs, .raised e)

/-- The function `run_game` from runner.py: resume (game identifier supplied) or create,
then run the loop.  The default of `max_invalid_actions` in the source is 5;
`onStepConfigured` models whether `on_step` is `None`. -/
def run_game (env : RunEnv) (modelId : Option String) (gameId? : Option String)
    (maxInvalidActions : Int) (onStepConfigured : Bool) :
    List Event × RunOutcome :=
  match gameId? with
  | some gameId =>
    let state := env.getResponse
    let observation := state.observation
    let spectatorUrl := ""
    if !state.outcome.isInProgress then
      ([.getCall gameId], .finished ⟨gameId, spectatorUrl, state.outcome⟩)
    else
      let r := runGameLoop gameId spectatorUrl maxInvalidActions onStepConfigured
        observation 0 env.agentResults env.submitResults env.stepResults
      (.getCall gameId :: r.1, r.2)
  | Option.none =>
    let game := env.createResponse
    let r := runGameLoop game.gameId game.spectatorUrl maxInvalidActions
      onStepConfigured game.observation 0 env.agentResults env.submitResults
      env.stepResults
    (.createCall modelId :: r.1, r.2)

/-- The `while True` loop of `async_run_game` (runner.py, lines 148-203):
identical to the loop of `run_game` except that the rate-limit backoff awaits
`asyncio.sleep` instead of calling `time.sleep`. -/
def asyncRunGameLoop (gameId spectatorUrl : String) (maxInvalidActions : Int)
    (onStepConfigured : Bool) (observation : Observation)
    (consecutiveInvalid : Int) (agentResults : List (Except PyExc Action))
    (submitResults : List SubmitResult) (stepResults : List (Except PyExc Unit)) :
    List Event × RunOutcome :=
  match agentResults with
  | [] => ([], .outOfScript)
  | aRes :: aRest =>
    match aRes with
    | .error e =>
      ([.agentCall observation],
       .raised (.runtimeError
         ("Agent function failed [game=" ++ gameId ++ ", turn="
           ++ toString observation.turn ++ "]") (some e)))
    | .ok action =>
      match submitResults with
      | [] => ([.agentCall observation], .outOfScript)
      | sRes :: sRest =>
        let evs := [Event.agentCall observation, Event.submitCall gameId action]
        match sRes with
        | .ok result =>
          if onStepConfigured then
            match stepResults with
            | [] => (evs, .outOfScript)
            | cbRes :: cbRest =>
              let evs := evs ++ [Event.stepCall observation action]
              match cbRes with
              | .error e => (evs, .raised e)
              | .ok _ =>
                if result.outcome.isInProgress then
                  let r := asyncRunGameLoop gameId spectatorUrl maxInvalidActions
                    onStepConfigured result.observation 0 aRest sRest cbRest
                  (evs ++ r.1, r.2)
                else
                  (evs, .finished ⟨gameId, spectatorUrl, result.outcome⟩)
          else
            if result.outcome.isInProgress then
              let r := asyncRunGameLoop gameId spectatorUrl maxInvalidActions
                onStepConfigured result.observation 0 aRest sRest stepResults
              (evs ++ r.1, r.2)
            else
              (evs, .finished ⟨gameId, spectatorUrl, result.outcome⟩)
        | .error e =>
          match e with
          | .crawler (.invalidActionError sc msg code) =>
            let ci := consecutiveInvalid + 1
            if ci ≥ maxInvalidActions then
              (evs, .raised (.crawler (.invalidActionError sc msg code)))
            else
              let r := asyncRunGameLoop gameId spectatorUrl maxInvalidActions
                onStepConfigured observation ci aRest sRest stepResults
              (evs ++ r.1, r.2)
          | .crawler (.rateLimitError _sc _msg retryAfter) =>
            let evs := evs ++ [Event.sleep .asyncioSleep retryAfter]
            let r := asyncRunGameLoop gameId spectatorUrl maxInvalidActions
              onStepConfigured observation consecutiveInvalid aRest sRest stepResults
            (evs ++ r.1, r.2)
          | .crawler (.gameOverError _sc _msg outcome) =>
            match mkGameResult gameId spectatorUrl outcome with
            | .ok result => (evs, .finished result)
            | .error e2 => (evs, .raised e2)
          | e => (evs, .raised e)

/-- The function `async_run_game` from runner.py (lines 118-203): same structure as
`run_game`, with awaited client calls and `asyncio.sleep` backoff. -/
def async_run_game (env : RunEnv) (modelId : Option String)
    (gameId? : Option String) (maxInvalidActions : Int)
    (onStepConfigured : Bool) : List Event × RunOutcome :=
  match gameId? with
  | some gameId =>
    let state := env.getResponse
    let observation := state.observation
    let spectatorUrl := ""
    if !state.outcome.isInProgress then
      ([.getCall gameId], .finished ⟨gameId, spectatorUrl, state.outcome⟩)
    else
      let r := asyncRunGameLoop gameId spectatorUrl maxInvalidActions
        onStepConfigured observation 0 env.agentResults env.submitResults
        env.stepResults
      (.getCall gameId :: r.1, r.2)
  | Option.none =>
    let game := env.createResponse
    let r := asyncRunGameLoop game.gameId game.spectatorUrl maxInvalidActions
      onStepConfigured game.observation 0 env.agentResults env.submitResults
      env.stepResults
    (.createCall modelId :: r.1, r.2)

/-- Renaming of a sync-runner event trace to the async runner's: the two
runners differ only in the sleep primitive used for rate-limit backoff. -/
def toAsyncEvent : Event → Event
  | .sleep _ s => .sleep .asyncioSleep s
  | e => e

/-- A sample observation (turn 3) used to instantiate theorems on concrete
inputs. -/
def obs0 : Observation :=
  { turn := 3, floor := 1,
    player := { position := (0, 0), hp := 10, maxHp := 10, attack := 1,
                defense := 1, equippedWeapon := Option.none,
                equippedArmor := Option.none },
    inventory := [], visibleTiles := [], messages := [] }

/-- A second sample observation (the next turn). -/
def obs1 : Observation := { obs0 with turn := 4 }

/-- A sample action. -/
def act0 : Action := .wait Option.none

/-- A sample terminal action response. -/
def respDone : ActionResponse := ⟨obs1, .completed .victory 5 100⟩

/-- A sample in-progress action response. -/
def respGo : ActionResponse := ⟨obs1, .inProgress⟩

/-- A sample invalid-action rejection. -/
def invE : PyExc := .crawler (.invalidActionError 422 (.str "bad move") (.str "BLOCKED"))

/-- A sample environment whose fetched game state is already terminal. -/
def env0 : RunEnv :=
  { getResponse := ⟨obs0, .completed .death 3 47⟩,
    createResponse := ⟨"g", obs0, "url"⟩,
    agentResults := [], submitResults := [], stepResults := [] }

/-- A sample environment whose fetched game state is still in progress. -/
def env1 : RunEnv := { env0 with getResponse := ⟨obs0, .inProgress⟩ }

/-- C1: for every run of the game loop in which the submit call succeeds, the
loop terminates exactly when the returned Outcome is not in-progress — in
that case the `GameResult` carries the game identifier, the spectator URL and
that terminal Outcome — and while the returned Outcome is in-progress the
loop continues from the response's observation (with the invalid counter
reset to zero). -/
theorem runGameLoop_success_terminates_iff_not_inProgress
    (gid spec : String) (maxInv : Int) (obs : Observation) (ci : Int)
    (a : Action) (resp : ActionResponse) (ar : List (Except PyExc Action))
    (sr : List SubmitResult) (st : List (Except PyExc Unit)) :
    (resp.outcome.isInProgress = false →
      runGameLoop gid spec maxInv false obs ci (.ok a :: ar) (.ok resp :: sr) st
        = ([.agentCall obs, .submitCall gid a],
           .finished ⟨gid, spec, resp.outcome⟩)) ∧
    (resp.outcome.isInProgress = true →
      runGameLoop gid spec maxInv false obs ci (.ok a :: ar) (.ok resp :: sr) st
        = ([Event.agentCall obs, Event.submitCall gid a]
             ++ (runGameLoop gid spec maxInv false resp.observation 0 ar sr st).1,
           (runGameLoop gid spec maxInv false resp.observation 0 ar sr st).2)) := by
  constructor
  · intro h
    simp [runGameLoop, h]
  · intro h
    simp [runGameLoop, h]

/-- Witness for C1 at concrete inputs: one terminal response, one in-progress
response. -/
theorem runGameLoop_success_terminates_iff_not_inProgress_witness :
    (respDone.outcome.isInProgress = false ∧
      runGameLoop "g" "u" 5 false obs0 0 [.ok act0] [.ok respDone] []
        = ([.agentCall obs0, .submitCall "g" act0],
           .finished ⟨"g", "u", respDone.outcome⟩)) ∧
    (respGo.outcome.isInProgress = true ∧
      runGameLoop "g" "u" 5 false obs0 0 [.ok act0] [.ok respGo] []
        = ([Event.agentCall obs0, Event.submitCall "g" act0]
             ++ (runGameLoop "g" "u" 5 false respGo.observation 0 [] [] []).1,
           (runGameLoop "g" "u" 5 false respGo.observation 0 [] [] []).2)) :=
  ⟨⟨rfl, (runGameLoop_success_terminates_iff_not_inProgress "g" "u" 5 obs0 0 act0
      respDone [] [] []).1 rfl⟩,
   ⟨rfl, (runGameLoop_success_terminates_iff_not_inProgress "g" "u" 5 obs0 0 act0
      respGo [] [] []).2 rfl⟩⟩

/-- C2: a `run_game` call made with an existing game identifier fetches the game
state; when the fetched Outcome is terminal it returns immediately a
`GameResult` with that game identifier, an empty spectator URL and that
Outcome — the trace shows no decision-function call and no submit — and when
the fetched Outcome is in-progress the loop continues from the fetched
observation with an empty spectator URL. -/
theorem run_game_resume_short_circuit
    (env : RunEnv) (modelId : Option String) (gid : String) (maxInv : Int)
    (onStep : Bool) :
    (env.getResponse.outcome.isInProgress = false →
      run_game env modelId (some gid) maxInv onStep
        = ([.getCall gid], .finished ⟨gid, "", env.getResponse.outcome⟩)) ∧
    (env.getResponse.outcome.isInProgress = true →
      run_game env modelId (some gid) maxInv onStep
        = (Event.getCall gid ::
             (runGameLoop gid "" maxInv onStep env.getResponse.observation 0
               env.agentResults env.submitResults env.stepResults).1,
           (runGameLoop gid "" maxInv onStep env.getResponse.observation 0
             env.agentResults env.submitResults env.stepResults).2)) := by
  constructor
  · intro h
    simp [run_game, h]
  · intro h
    simp [run_game, h]

/-- Witness for C2 at concrete inputs: a terminal fetched state and an
in-progress fetched state. -/
theorem run_game_resume_short_circuit_witness :
    (env0.getResponse.outcome.isInProgress = false ∧
      run_game env0 Option.none (some "g7") 5 false
        = ([.getCall "g7"], .finished ⟨"g7", "", env0.getResponse.outcome⟩)) ∧
    (env1.getResponse.outcome.isInProgress = true ∧
      run_game env1 Option.none (some "g7") 5 false
        = (Event.getCall "g7" ::
             (runGameLoop "g7" "" 5 false env1.getResponse.observation 0
               env1.agentResults env1.submitResults env1.stepResults).1,
           (runGameLoop "g7" "" 5 false env1.getResponse.observation 0
             env1.agentResults env1.submitResults env1.stepResults).2)) :=
  ⟨⟨rfl, (run_game_resume_short_circuit env0 Option.none "g7" 5 false).1 rfl⟩,
   ⟨rfl, (run_game_resume_short_circuit env1 Option.none "g7" 5 false).2 rfl⟩⟩

/-- C4: a rate-limit rejection of a submit makes the runner sleep (via
`time.sleep`) for the retry-after duration carried by the error and re-invoke
the decision function with the same unchanged observation; the
consecutive-invalid counter is neither incremented nor reset and the loop
never terminates on a rate-limit rejection by itself. -/
theorem runGameLoop_rate_limit_sleeps_and_retries
    (gid spec : String) (maxInv : Int) (onStep : Bool) (obs : Observation)
    (ci : Int) (a : Action) (sc : Int) (msg : PyValue) (ra : Int)
    (ar : List (Except PyExc Action)) (sr : List SubmitResult)
    (st : List (Except PyExc Unit)) :
    runGameLoop gid spec maxInv onStep obs ci (.ok a :: ar)
        (.error (.crawler (.rateLimitError sc msg ra)) :: sr) st
      = ([Event.agentCall obs, Event.submitCall gid a, Event.sleep .timeSleep ra]
           ++ (runGameLoop gid spec maxInv onStep obs ci ar sr st).1,
         (runGameLoop gid spec maxInv onStep obs ci ar sr st).2) := rfl

/-- C5 counterexample: a game-over rejection whose carried Outcome is the
in-progress variant (reachable via a 409 body with outcome
`{"status": "in_progress"}`) does NOT return a normal `GameResult`: the
pydantic validation of `GameResult.outcome` raises, so an exception
propagates to the caller, contrary to the claim as stated. -/
theorem runGameLoop_game_over_inProgress_raises
    : runGameLoop "g" "u" 5 false obs0 0 [.ok act0]
        [.error (.crawler (.gameOverError 409 (.str "m") .inProgress))] []
      = ([.agentCall obs0, .submitCall "g" act0], .raised .pydanticError) := rfl

/-- C5 (amended): a game-over (conflict carrying an outcome) rejection of a
submit whose carried Outcome is not the in-progress variant terminates the
runner immediately with a normal `GameResult` carrying exactly the Outcome of
that error; no exception is raised and the trace ends (the decision function
is not invoked again).  (With an in-progress carried Outcome the `GameResult`
construction raises a pydantic validation error instead.) -/
theorem runGameLoop_game_over_returns_result
    (gid spec : String) (maxInv : Int) (onStep : Bool) (obs : Observation)
    (ci : Int) (a : Action) (sc : Int) (msg : PyValue) (o : Outcome)
    (ar : List (Except PyExc Action)) (sr : List SubmitResult)
    (st : List (Except PyExc Unit)) (h : o.isInProgress = false) :
    runGameLoop gid spec maxInv onStep obs ci (.ok a :: ar)
        (.error (.crawler (.gameOverError sc msg o)) :: sr) st
      = ([.agentCall obs, .submitCall gid a], .finished ⟨gid, spec, o⟩) := by
  simp [runGameLoop, mkGameResult, h]

/-- Witness for amended C5 at a concrete terminal carried outcome. -/
theorem runGameLoop_game_over_returns_result_witness :
    (Outcome.completed .death 3 47).isInProgress = false ∧
    runGameLoop "g" "u" 5 false obs0 0 [.ok act0]
        [.error (.crawler (.gameOverError 409 (.str "m")
          (.completed .death 3 47)))] []
      = ([.agentCall obs0, .submitCall "g" act0],
         .finished ⟨"g", "u", .completed .death 3 47⟩) :=
  ⟨rfl, runGameLoop_game_over_returns_result "g" "u" 5 false obs0 0 act0 409
    (.str "m") (.completed .death 3 47) [] [] [] rfl⟩

/-- C7: an exception raised by the decision function is not retried: the
runner raises a `RuntimeError` whose message carries the game identifier and
the current observation's turn number, with the original exception as cause,
and the loop does not continue (the trace ends at that decision call). -/
theorem runGameLoop_agent_failure_is_fatal
    (gid spec : String) (maxInv : Int) (onStep : Bool) (obs : Observation)
    (ci : Int) (e : PyExc) (ar : List (Except PyExc Action))
    (sr : List SubmitResult) (st : List (Except PyExc Unit)) :
    runGameLoop gid spec maxInv onStep obs ci (.error e :: ar) sr st
      = ([.agentCall obs],
         .raised (.runtimeError
           ("Agent function failed [game=" ++ gid ++ ", turn="
             ++ toString obs.turn ++ "]") (some e))) := rfl

/-- C8: a configured step-callback is invoked exactly once per successful
submit, right after it, with the pre-action observation and the submitted
action — including on the final terminating submit — and an exception raised
by the callback propagates out unmodified, terminating the loop. -/
theorem runGameLoop_step_callback
    (gid spec : String) (maxInv : Int) (obs : Observation) (ci : Int)
    (a : Action) (resp : ActionResponse) (e : PyExc) (u : Unit)
    (ar : List (Except PyExc Action)) (sr : List SubmitResult)
    (cr : List (Except PyExc Unit)) :
    (runGameLoop gid spec maxInv true obs ci (.ok a :: ar) (.ok resp :: sr)
        (.error e :: cr)
      = ([.agentCall obs, .submitCall gid a, .stepCall obs a], .raised e)) ∧
    (resp.outcome.isInProgress = true →
      runGameLoop gid spec maxInv true obs ci (.ok a :: ar) (.ok resp :: sr)
          (.ok u :: cr)
        = ([Event.agentCall obs, Event.submitCall gid a, Event.stepCall obs a]
             ++ (runGameLoop gid spec maxInv true resp.observation 0 ar sr cr).1,
           (runGameLoop gid spec maxInv true resp.observation 0 ar sr cr).2)) ∧
    (resp.outcome.isInProgress = false →
      runGameLoop gid spec maxInv true obs ci (.ok a :: ar) (.ok resp :: sr)
          (.ok u :: cr)
        = ([.agentCall obs, .submitCall gid a, .stepCall obs a],
           .finished ⟨gid, spec, resp.outcome⟩)) := by
  refine ⟨rfl, fun h => ?_, fun h => ?_⟩
  · simp [runGameLoop, h]
  · simp [runGameLoop, h]

/-- Witness for C8 at concrete inputs: an in-progress response and a terminal
response, both with the callback succeeding. -/
theorem runGameLoop_step_callback_witness :
    (respGo.outcome.isInProgress = true ∧
      runGameLoop "g" "u" 5 true obs0 0 [.ok act0] [.ok respGo] [.ok ()]
        = ([Event.agentCall obs0, Event.submitCall "g" act0,
            Event.stepCall obs0 act0]
             ++ (runGameLoop "g" "u" 5 true respGo.observation 0 [] [] []).1,
           (runGameLoop "g" "u" 5 true respGo.observation 0 [] [] []).2)) ∧
    (respDone.outcome.isInProgress = false ∧
      runGameLoop "g" "u" 5 true obs0 0 [.ok act0] [.ok respDone] [.ok ()]
        = ([.agentCall obs0, .submitCall "g" act0, .stepCall obs0 act0],
           .finished ⟨"g", "u", respDone.outcome⟩)) :=
  ⟨⟨rfl, (runGameLoop_step_callback "g" "u" 5 obs0 0 act0 respGo invE () [] []
      []).2.1 rfl⟩,
   ⟨rfl, (runGameLoop_step_callback "g" "u" 5 obs0 0 act0 respDone invE () [] []
      []).2.2 rfl⟩⟩

/-- One-step unfolding of the invalid-action branch of the loop, in
if-then-else form. -/
theorem runGameLoop_invalid_step
    (gid spec : String) (maxInv : Int) (onStep : Bool) (obs : Observation)
    (ci : Int) (a : Action) (sc : Int) (msg code : PyValue)
    (ar : List (Except PyExc Action)) (sr : List SubmitResult)
    (st : List (Except PyExc Unit)) :
    runGameLoop gid spec maxInv onStep obs ci (.ok a :: ar)
        (.error (.crawler (.invalidActionError sc msg code)) :: sr) st
      = if ci + 1 ≥ maxInv then
          ([Event.agentCall obs, Event.submitCall gid a],
           .raised (.crawler (.invalidActionError sc msg code)))
        else
          ([Event.agentCall obs, Event.submitCall gid a]
             ++ (runGameLoop gid spec maxInv onStep obs (ci + 1) ar sr st).1,
           (runGameLoop gid spec maxInv onStep obs (ci + 1) ar sr st).2) := rfl

/-- Helper for C3: starting from counter value `ci` with `ci + k` equal to
the threshold, `k ≥ 1` further consecutive invalid-action rejections end in a
re-raise of the invalid-action error. -/
theorem runGameLoop_replicate_invalid
    (gid spec : String) (maxInv : Int) (onStep : Bool) (obs : Observation)
    (a : Action) (sc : Int) (msg code : PyValue)
    (st : List (Except PyExc Unit)) :
    ∀ (k : ℕ) (ci : Int), 1 ≤ k → ci + k = maxInv →
      runGameLoop gid spec maxInv onStep obs ci
          (List.replicate k (.ok a))
          (List.replicate k
            (.error (.crawler (.invalidActionError sc msg code)))) st
        = ((List.replicate k
              [Event.agentCall obs, Event.submitCall gid a]).flatten,
           .raised (.crawler (.invalidActionError sc msg code))) := by
  intro k
  induction k with
  | zero => intro ci h1 _; omega
  | succ k ih =>
    intro ci hk hci
    rcases Nat.eq_zero_or_pos k with hk0 | hk1
    · subst hk0
      have hge : ci + 1 ≥ maxInv := by push_cast at hci; omega
      simp only [List.replicate_succ, List.replicate_zero]
      rw [runGameLoop_invalid_step, if_pos hge]
      simp
    · have hlt : ¬ (ci + 1 ≥ maxInv) := by push_cast at hci; omega
      have hrec := ih (ci + 1) hk1 (by push_cast at hci ⊢; omega)
      simp only [List.replicate_succ]
      rw [runGameLoop_invalid_step, if_neg hlt, hrec]
      simp

/-- C3: an invalid-action rejection increments the consecutive-invalid
counter; when the incremented counter reaches the threshold the runner
re-raises the invalid-action error, otherwise the loop retries with the SAME
unchanged observation; every successful submit resets the counter to zero;
and with threshold `N`, `N` consecutive invalid-action rejections starting
from a fresh counter end in a raise rather than a further iteration. -/
theorem runGameLoop_invalid_action_policy
    (gid spec : String) (maxInv : Int) (onStep : Bool) (obs : Observation)
    (ci : Int) (a : Action) (sc : Int) (msg code : PyValue)
    (resp : ActionResponse) (ar : List (Except PyExc Action))
    (sr : List SubmitResult) (st : List (Except PyExc Unit)) :
    (ci + 1 ≥ maxInv →
      runGameLoop gid spec maxInv onStep obs ci (.ok a :: ar)
          (.error (.crawler (.invalidActionError sc msg code)) :: sr) st
        = ([Event.agentCall obs, Event.submitCall gid a],
           .raised (.crawler (.invalidActionError sc msg code)))) ∧
    (ci + 1 < maxInv →
      runGameLoop gid spec maxInv onStep obs ci (.ok a :: ar)
          (.error (.crawler (.invalidActionError sc msg code)) :: sr) st
        = ([Event.agentCall obs, Event.submitCall gid a]
             ++ (runGameLoop gid spec maxInv onStep obs (ci + 1) ar sr st).1,
           (runGameLoop gid spec maxInv onStep obs (ci + 1) ar sr st).2)) ∧
    (resp.outcome.isInProgress = true →
      runGameLoop gid spec maxInv false obs ci (.ok a :: ar) (.ok resp :: sr) st
        = ([Event.agentCall obs, Event.submitCall gid a]
             ++ (runGameLoop gid spec maxInv false resp.observation 0 ar sr st).1,
           (runGameLoop gid spec maxInv false resp.observation 0 ar sr st).2)) ∧
    (∀ N : ℕ, 1 ≤ N →
      runGameLoop gid spec (N : Int) onStep obs 0
          (List.replicate N (.ok a))
          (List.replicate N
            (.error (.crawler (.invalidActionError sc msg code)))) st
        = ((List.replicate N
              [Event.agentCall obs, Event.submitCall gid a]).flatten,
           .raised (.crawler (.invalidActionError sc msg code)))) := by
  refine ⟨fun h => ?_, fun h => ?_, fun h => ?_, fun N hN => ?_⟩
  · rw [runGameLoop_invalid_step, if_pos h]
  · rw [runGameLoop_invalid_step, if_neg (by omega)]
  · simp [runGameLoop, h]
  · exact runGameLoop_replicate_invalid gid spec (N : Int) onStep obs a sc msg
      code st N 0 hN (by omega)

/-- Witness for C3, with threshold 5: the fifth consecutive rejection
re-raises, the first retries with the same observation, a successful submit
resets the counter, and with threshold 2 two consecutive rejections raise. -/
theorem runGameLoop_invalid_action_policy_witness :
    ((4 : Int) + 1 ≥ (5 : Int) ∧
      runGameLoop "g" "u" 5 false obs0 4 [.ok act0] [.error invE] []
        = ([Event.agentCall obs0, Event.submitCall "g" act0],
           .raised invE)) ∧
    ((0 : Int) + 1 < (5 : Int) ∧
      runGameLoop "g" "u" 5 false obs0 0 [.ok act0] [.error invE] []
        = ([Event.agentCall obs0, Event.submitCall "g" act0]
             ++ (runGameLoop "g" "u" 5 false obs0 1 [] [] []).1,
           (runGameLoop "g" "u" 5 false obs0 1 [] [] []).2)) ∧
    (respGo.outcome.isInProgress = true ∧
      runGameLoop "g" "u" 5 false obs0 3 [.ok act0] [.ok respGo] []
        = ([Event.agentCall obs0, Event.submitCall "g" act0]
             ++ (runGameLoop "g" "u" 5 false respGo.observation 0 [] [] []).1,
           (runGameLoop "g" "u" 5 false respGo.observation 0 [] [] []).2)) ∧
    (1 ≤ 2 ∧
      runGameLoop "g" "u" ((2 : ℕ) : Int) false obs0 0
          (List.replicate 2 (.ok act0)) (List.replicate 2 (.error invE)) []
        = ((List.replicate 2
              [Event.agentCall obs0, Event.submitCall "g" act0]).flatten,
           .raised invE)) :=
  ⟨⟨by decide, (runGameLoop_invalid_action_policy "g" "u" 5 false obs0 4 act0
      422 (.str "bad move") (.str "BLOCKED") respGo [] [] []).1 (by decide)⟩,
   ⟨by decide, (runGameLoop_invalid_action_policy "g" "u" 5 false obs0 0 act0
      422 (.str "bad move") (.str "BLOCKED") respGo [] [] []).2.1 (by decide)⟩,
   ⟨rfl, (runGameLoop_invalid_action_policy "g" "u" 5 false obs0 3 act0
      422 (.str "bad move") (.str "BLOCKED") respGo [] [] []).2.2.1 rfl⟩,
   ⟨by decide, (runGameLoop_invalid_action_policy "g" "u" ((2 : ℕ) : Int) false
      obs0 0 act0 422 (.str "bad move") (.str "BLOCKED") respGo [] [] []).2.2.2
      2 (by decide)⟩⟩

/-- C6: the function `map_error_response` maps each HTTP error status to exactly one
raised exception, per the taxonomy: 400 validation (with the body's optional
details), 401 authentication, 403 forbidden, 404 not-found, 409 game-over
with the parsed Outcome when a (truthy, parseable) outcome payload is present
and a generic conflict error otherwise, 422 invalid-action with a
machine-readable code (default "UNKNOWN"), 429 rate-limit with retry-after
seconds from the retry-after header defaulting to 60 when the header is
absent, and any other status a generic API error carrying the status code.
The Python function never returns normally; the model returns the raised
exception as its value.  `message` is always the body's "error" entry,
defaulting to "Unknown error". -/
theorem map_error_response_taxonomy
    (statusCode : Int) (body : List (String × PyValue))
    (headers : List (String × String)) :
    (statusCode = 400 →
      map_error_response statusCode body headers
        = .crawler (.validationError 400
            (dictGetD body "error" (.str "Unknown error"))
            (dictGetD body "details" PyValue.none))) ∧
    (statusCode = 401 →
      map_error_response statusCode body headers
        = .crawler (.authenticationError 401
            (dictGetD body "error" (.str "Unknown error")))) ∧
    (statusCode = 403 →
      map_error_response statusCode body headers
        = .crawler (.forbiddenError 403
            (dictGetD body "error" (.str "Unknown error")))) ∧
    (statusCode = 404 →
      map_error_response statusCode body headers
        = .crawler (.notFoundError 404
            (dictGetD body "error" (.str "Unknown error")))) ∧
    (statusCode = 409 → ∀ o : Outcome,
      (dictGetD body "outcome" PyValue.none).truthy = true →
      parse_outcome (dictGetD body "outcome" PyValue.none) = some o →
      map_error_response statusCode body headers
        = .crawler (.gameOverError 409
            (dictGetD body "error" (.str "Unknown error")) o)) ∧
    (statusCode = 409 →
      (dictGetD body "outcome" PyValue.none).truthy = false →
      map_error_response statusCode body headers
        = .crawler (.apiError 409
            (dictGetD body "error" (.str "Unknown error")))) ∧
    (statusCode = 422 →
      map_error_response statusCode body headers
        = .crawler (.invalidActionError 422
            (dictGetD body "error" (.str "Unknown error"))
            (dictGetD body "code" (.str "UNKNOWN")))) ∧
    (statusCode = 429 → ∀ ra : Int,
      pyParseInt (headerGetD headers "retry-after" "60") = some ra →
      map_error_response statusCode body headers
        = .crawler (.rateLimitError 429
            (dictGetD body "error" (.str "Unknown error")) ra)) ∧
    (statusCode = 429 →
      headers.find? (fun kv => kv.1 == "retry-after") = Option.none →
      map_error_response statusCode body headers
        = .crawler (.rateLimitError 429
            (dictGetD body "error" (.str "Unknown error")) 60)) ∧
    (400 ≤ statusCode → statusCode ≠ 400 → statusCode ≠ 401 →
      statusCode ≠ 403 → statusCode ≠ 404 → statusCode ≠ 409 →
      statusCode ≠ 422 → statusCode ≠ 429 →
      map_error_response statusCode body headers
        = .crawler (.apiError statusCode
            (dictGetD body "error" (.str "Unknown error")))) := by
  refine ⟨fun h => ?_, fun h => ?_, fun h => ?_, fun h => ?_,
    fun h o ht hp => ?_, fun h ht => ?_, fun h => ?_, fun h ra hra => ?_,
    fun h habs => ?_, fun hge h1 h2 h3 h4 h5 h6 h7 => ?_⟩
  · subst h; rfl
  · subst h; rfl
  · subst h; rfl
  · subst h; rfl
  · subst h; simp [map_error_response, ht, hp]
  · subst h; simp [map_error_response, ht]
  · subst h; rfl
  · subst h; simp [map_error_response, hra]
  · subst h
    simp only [map_error_response, headerGetD, habs]
    rw [show pyParseInt "60" = some 60 from by decide]
    norm_num
  · simp [map_error_response, h1, h2, h3, h4, h5, h6, h7]

/-- Witness for C6 at concrete inputs: every status branch instantiated. -/
theorem map_error_response_taxonomy_witness :
    (map_error_response 400 [("error", .str "m"), ("details", .dict [("f", .list [.str "bad"])])] []
      = .crawler (.validationError 400 (.str "m")
          (.dict [("f", .list [.str "bad"])]))) ∧
    (map_error_response 401 [("error", .str "m")] []
      = .crawler (.authenticationError 401 (.str "m"))) ∧
    (map_error_response 403 [("error", .str "m")] []
      = .crawler (.forbiddenError 403 (.str "m"))) ∧
    (map_error_response 404 [("error", .str "m")] []
      = .crawler (.notFoundError 404 (.str "m"))) ∧
    (map_error_response 409
        [("error", .str "m"),
         ("outcome", .dict [("status", .str "completed"),
           ("result", .str "death"), ("floor", .int 3), ("turns", .int 47)])] []
      = .crawler (.gameOverError 409 (.str "m")
          (.completed .death 3 47))) ∧
    (map_error_response 409 [("error", .str "m")] []
      = .crawler (.apiError 409 (.str "m"))) ∧
    (map_error_response 422 [("error", .str "m"), ("code", .str "BLOCKED")] []
      = .crawler (.invalidActionError 422 (.str "m") (.str "BLOCKED"))) ∧
    (map_error_response 429 [("error", .str "m")] [("retry-after", "7")]
      = .crawler (.rateLimitError 429 (.str "m") 7)) ∧
    (map_error_response 429 [("error", .str "m")] []
      = .crawler (.rateLimitError 429 (.str "m") 60)) ∧
    (map_error_response 500 [("error", .str "m")] []
      = .crawler (.apiError 500 (.str "m"))) := by
  refine ⟨?_, ?_, ?_, ?_, ?_, ?_, ?_, ?_, ?_, ?_⟩
  · exact (map_error_response_taxonomy 400
      [("error", .str "m"), ("details", .dict [("f", .list [.str "bad"])])]
      []).1 rfl
  · exact (map_error_response_taxonomy 401 [("error", .str "m")] []).2.1 rfl
  · exact (map_error_response_taxonomy 403 [("error", .str "m")] []).2.2.1 rfl
  · exact (map_error_response_taxonomy 404 [("error", .str "m")] []).2.2.2.1 rfl
  · exact (map_error_response_taxonomy 409
      [("error", .str "m"),
       ("outcome", .dict [("status", .str "completed"),
         ("result", .str "death"), ("floor", .int 3), ("turns", .int 47)])]
      []).2.2.2.2.1 rfl (.completed .death 3 47) rfl rfl
  · exact (map_error_response_taxonomy 409 [("error", .str "m")]
      []).2.2.2.2.2.1 rfl rfl
  · exact (map_error_response_taxonomy 422
      [("error", .str "m"), ("code", .str "BLOCKED")] []).2.2.2.2.2.2.1 rfl
  · exact (map_error_response_taxonomy 429 [("error", .str "m")]
      [("retry-after", "7")]).2.2.2.2.2.2.2.1 rfl 7 (by decide)
  · exact (map_error_response_taxonomy 429 [("error", .str "m")]
      []).2.2.2.2.2.2.2.2.1 rfl rfl
  · exact (map_error_response_taxonomy 500 [("error", .str "m")]
      []).2.2.2.2.2.2.2.2.2 (by norm_num) (by norm_num) (by norm_num)
      (by norm_num) (by norm_num) (by norm_num) (by norm_num) (by norm_num)

/-- C9: for a 409 response the outcome payload is tested by Python
truthiness, not key presence: an "outcome" entry that is absent, null or an
empty dict yields the generic conflict `CrawlerAPIError`, and `GameOverError`
(with `parse_outcome` applied to the payload) can only arise from a truthy
payload. -/
theorem map_error_response_409_truthiness
    (body : List (String × PyValue)) (headers : List (String × String)) :
    (dictGet body "outcome" = Option.none →
      map_error_response 409 body headers
        = .crawler (.apiError 409
            (dictGetD body "error" (.str "Unknown error")))) ∧
    (dictGet body "outcome" = some PyValue.none →
      map_error_response 409 body headers
        = .crawler (.apiError 409
            (dictGetD body "error" (.str "Unknown error")))) ∧
    (dictGet body "outcome" = some (PyValue.dict []) →
      map_error_response 409 body headers
        = .crawler (.apiError 409
            (dictGetD body "error" (.str "Unknown error")))) ∧
    (∀ o : Outcome,
      (dictGetD body "outcome" PyValue.none).truthy = true →
      parse_outcome (dictGetD body "outcome" PyValue.none) = some o →
      map_error_response 409 body headers
        = .crawler (.gameOverError 409
            (dictGetD body "error" (.str "Unknown error")) o)) ∧
    (∀ (sc : Int) (msg : PyValue) (o : Outcome),
      map_error_response 409 body headers
        = .crawler (.gameOverError sc msg o) →
      (dictGetD body "outcome" PyValue.none).truthy = true) := by
  refine ⟨fun h => ?_, fun h => ?_, fun h => ?_, fun o ht hp => ?_,
    fun sc msg o h => ?_⟩
  · simp [map_error_response, dictGetD, h, PyValue.truthy]
  · simp [map_error_response, dictGetD, h, PyValue.truthy]
  · simp [map_error_response, dictGetD, h, PyValue.truthy]
  · simp [map_error_response, ht, hp]
  · by_cases ht : (dictGetD body "outcome" PyValue.none).truthy = true
    · exact ht
    · have ht' : (dictGetD body "outcome" PyValue.none).truthy = false := by
        simpa using ht
      simp [map_error_response, ht'] at h

/-- Witness for C9 at concrete inputs: outcome key absent, null outcome,
empty-dict outcome, and a truthy parseable outcome. -/
theorem map_error_response_409_truthiness_witness :
    (dictGet [("error", PyValue.str "m")] "outcome" = Option.none ∧
      map_error_response 409 [("error", .str "m")] []
        = .crawler (.apiError 409 (.str "m"))) ∧
    (dictGet [("outcome", PyValue.none)] "outcome" = some PyValue.none ∧
      map_error_response 409 [("outcome", PyValue.none)] []
        = .crawler (.apiError 409 (.str "Unknown error"))) ∧
    (dictGet [("outcome", PyValue.dict [])] "outcome"
        = some (PyValue.dict []) ∧
      map_error_response 409 [("outcome", PyValue.dict [])] []
        = .crawler (.apiError 409 (.str "Unknown error"))) ∧
    ((dictGetD [("outcome", PyValue.dict [("status", PyValue.str "abandoned"),
        ("reason", PyValue.str "timeout"), ("floor", PyValue.int 2),
        ("turns", PyValue.int 9)])] "outcome" PyValue.none).truthy = true ∧
      map_error_response 409
          [("outcome", .dict [("status", .str "abandoned"),
            ("reason", .str "timeout"), ("floor", .int 2),
            ("turns", .int 9)])] []
        = .crawler (.gameOverError 409 (.str "Unknown error")
            (.abandoned .timeout 2 9))) :=
  ⟨⟨rfl, (map_error_response_409_truthiness [("error", .str "m")] []).1 rfl⟩,
   ⟨rfl, (map_error_response_409_truthiness [("outcome", PyValue.none)]
      []).2.1 rfl⟩,
   ⟨rfl, (map_error_response_409_truthiness [("outcome", PyValue.dict [])]
      []).2.2.1 rfl⟩,
   ⟨rfl, (map_error_response_409_truthiness
      [("outcome", .dict [("status", .str "abandoned"),
        ("reason", .str "timeout"), ("floor", .int 2), ("turns", .int 9)])]
      []).2.2.2.1 (.abandoned .timeout 2 9) rfl rfl⟩⟩

/-- Helper for C10: the async loop is the sync loop with every alive event
kept and each `time.sleep` backoff renamed to `asyncio.sleep`. -/
theorem asyncRunGameLoop_eq_map
    (gid spec : String) (maxInv : Int) (onStep : Bool) :
    ∀ (ar : List (Except PyExc Action)) (obs : Observation) (ci : Int)
      (sr : List SubmitResult) (st : List (Except PyExc Unit)),
      asyncRunGameLoop gid spec maxInv onStep obs ci ar sr st
        = ((runGameLoop gid spec maxInv onStep obs ci ar sr st).1.map toAsyncEvent,
           (runGameLoop gid spec maxInv onStep obs ci ar sr st).2) := by
  intro ar
  induction ar with
  | nil => intro obs ci sr st; rfl
  | cons aRes aRest ih =>
    intro obs ci sr st
    cases aRes with
    | error e => simp [runGameLoop, asyncRunGameLoop, toAsyncEvent]
    | ok a =>
      cases sr with
      | nil => rfl
      | cons sRes sRest =>
        cases sRes with
        | ok resp =>
          cases onStep with
          | false =>
            by_cases hio : resp.outcome.isInProgress
            · simp [runGameLoop, asyncRunGameLoop, toAsyncEvent, hio, ih]
            · simp [runGameLoop, asyncRunGameLoop, toAsyncEvent, hio]
          | true =>
            cases st with
            | nil => rfl
            | cons cbRes cbRest =>
              cases cbRes with
              | error e =>
                simp [runGameLoop, asyncRunGameLoop, toAsyncEvent]
              | ok u =>
                by_cases hio : resp.outcome.isInProgress
                · simp [runGameLoop, asyncRunGameLoop, toAsyncEvent, hio, ih]
                · simp [runGameLoop, asyncRunGameLoop, toAsyncEvent, hio]
        | error e =>
          cases e with
          | crawler ce =>
            cases ce with
            | invalidActionError sc msg code =>
              by_cases hci : ci + 1 ≥ maxInv
              · simp [runGameLoop, asyncRunGameLoop, toAsyncEvent, hci]
              · simp [runGameLoop, asyncRunGameLoop, toAsyncEvent, hci, ih]
            | rateLimitError sc msg ra =>
              simp [runGameLoop, asyncRunGameLoop, toAsyncEvent, ih]
            | gameOverError sc msg o =>
              by_cases hio : o.isInProgress
              · simp [runGameLoop, asyncRunGameLoop, toAsyncEvent, mkGameResult, hio]
              · simp [runGameLoop, asyncRunGameLoop, toAsyncEvent, mkGameResult, hio]
            | validationError sc msg d =>
              simp [runGameLoop, asyncRunGameLoop, toAsyncEvent]
            | authenticationError sc msg =>
              simp [runGameLoop, asyncRunGameLoop, toAsyncEvent]
            | forbiddenError sc msg =>
              simp [runGameLoop, asyncRunGameLoop, toAsyncEvent]
            | notFoundError sc msg =>
              simp [runGameLoop, asyncRunGameLoop, toAsyncEvent]
            | apiError sc msg =>
              simp [runGameLoop, asyncRunGameLoop, toAsyncEvent]
          | runtimeError msg c =>
            simp [runGameLoop, asyncRunGameLoop, toAsyncEvent]
          | valueError =>
            simp [runGameLoop, asyncRunGameLoop, toAsyncEvent]
          | pydanticError =>
            simp [runGameLoop, asyncRunGameLoop, toAsyncEvent]
          | other tag =>
            simp [runGameLoop, asyncRunGameLoop, toAsyncEvent]

/-- C10: the function `async_run_game` is behaviorally equivalent to `run_game`: on the
same environment (client responses and errors, decision-function outputs,
callback behavior) both end the same way — same `GameResult`, same raised
exception — and perform the same sequence of client, decision-function and
callback interactions, the traces differing only in the sleep primitive used
for rate-limit backoff (`asyncio.sleep` versus `time.sleep`). -/
theorem async_run_game_equiv_run_game
    (env : RunEnv) (modelId : Option String) (gameId? : Option String)
    (maxInv : Int) (onStep : Bool) :
    (async_run_game env modelId gameId? maxInv onStep).2
      = (run_game env modelId gameId? maxInv onStep).2 ∧
    (async_run_game env modelId gameId? maxInv onStep).1
      = (run_game env modelId gameId? maxInv onStep).1.map toAsyncEvent := by
  cases gameId? with
  | none =>
    constructor
    · simp [run_game, async_run_game, asyncRunGameLoop_eq_map]
    · simp [run_game, async_run_game, asyncRunGameLoop_eq_map, toAsyncEvent]
  | some gid =>
    by_cases h : env.getResponse.outcome.isInProgress
    · constructor
      · simp [run_game, async_run_game, h, asyncRunGameLoop_eq_map]
      · simp [run_game, async_run_game, h, asyncRunGameLoop_eq_map, toAsyncEvent]
    · constructor
      · simp [run_game, async_run_game, h]
      · simp [run_game, async_run_game, h, toAsyncEvent]

end Crawlerverse
